import Mathlib

/-!
# ARSC-Voting-App — verification of the voting-integrity core

Shallow embedding of the server core of the ARSC school-election app:
the entity data model (`shared/schema.ts`), the HTTP handlers of
`src/server/routes.ts` that the claims are about (vote submission, user
creation, vote reset, statistics), and the entity store.

The shipped `src/server/storage.ts` is an explicit placeholder: every
method carries the comment "Placeholder - replace with actual DB query",
`getUser` always returns `null`, `createVote` persists nothing and
`getVoteCounts` returns `[]`.  We therefore embed two layers:

* the shipped placeholder store, verbatim (`placeholderGetUser`,
  `postVoteShipped`), used for the claim about the reference
  implementation's behaviour; and
* a store modelled from the spec (`Store` and its operations, each marked
  `Modelled from the spec:`), standing in for the missing DB-backed
  store, against which the handler logic of `routes.ts` — which is real
  code and is embedded faithfully, check for check, in source order — is
  verified.

JavaScript numbers are modelled as `Nat` (ids, counts, grades) and the
floating-point percentages of the stats endpoint as `ℚ` (the handler
performs a single division and multiplication; `ℚ` has no NaN, and the
handler's `totalStudents > 0` guard is embedded as written).  Fields of
the schema that no handler under verification reads (photo/logo strings,
timestamps) are carried as plain data or omitted where noted.
-/

namespace ARSC

/-- `users` table of `shared/schema.ts`: id, name, unique reference
number, admin flag, has-voted flag, optional school level, optional
grade level. -/
structure User where
  id : Nat
  name : String
  referenceNumber : String
  isAdmin : Bool
  hasVoted : Bool
  schoolLevel : Option String
  gradeLevel : Option Nat
deriving Repr, DecidableEq

/-- `positions` table of `shared/schema.ts`. -/
structure Position where
  id : Nat
  name : String
  maxVotes : Nat
  schoolLevels : List String
  displayOrder : Nat
deriving Repr, DecidableEq

/-- `candidates` table of `shared/schema.ts`. -/
structure Candidate where
  id : Nat
  name : String
  photo : Option String
  positionId : Nat
  partylistId : Nat
  schoolLevels : List String
  gradeLevels : List Nat
deriving Repr, DecidableEq

/-- `votes` table of `shared/schema.ts`: serial id plus the
(userId, candidateId, positionId) link.  The `timestamp` column is a DB
default that no handler under verification reads; it is omitted. -/
structure Vote where
  id : Nat
  userId : Nat
  candidateId : Nat
  positionId : Nat
deriving Repr, DecidableEq

/-- `insertUserSchema` of `shared/schema.ts` (picks name,
referenceNumber, isAdmin, schoolLevel, gradeLevel). -/
structure InsertUser where
  name : String
  referenceNumber : String
  isAdmin : Bool
  schoolLevel : Option String
  gradeLevel : Option Nat
deriving Repr, DecidableEq

/-- `insertPositionSchema` of `shared/schema.ts`. -/
structure InsertPosition where
  name : String
  maxVotes : Nat
  schoolLevels : List String
  displayOrder : Nat
deriving Repr, DecidableEq

/-- `insertCandidateSchema` of `shared/schema.ts`. -/
structure InsertCandidate where
  name : String
  photo : Option String
  positionId : Nat
  partylistId : Nat
  schoolLevels : List String
  gradeLevels : List Nat
deriving Repr, DecidableEq

/-- `insertVoteSchema` of `shared/schema.ts` (userId, candidateId,
positionId). -/
structure InsertVote where
  userId : Nat
  candidateId : Nat
  positionId : Nat
deriving Repr, DecidableEq

/-- The session user object set by the login handler
(`routes.ts`, lines 54–61) and read by every other handler. -/
structure SessionUser where
  id : Nat
  name : String
  isAdmin : Bool
  hasVoted : Bool
  schoolLevel : Option String
  gradeLevel : Option Nat
deriving Repr, DecidableEq

/-- Modelled from the spec: the Entity Store (§4.1) behind
`src/server/storage.ts`, whose DB-backed implementation is missing from
the repository (every method is a "Placeholder - replace with actual DB
query" stub).  Entities live in lists; serial ids are handed out by
per-table counters, as the `serial` primary keys of the schema do.
Partylists and school settings are not touched by any claim and are not
carried. -/
structure Store where
  users : List User
  positions : List Position
  candidates : List Candidate
  votes : List Vote
  nextUserId : Nat
  nextPositionId : Nat
  nextCandidateId : Nat
  nextVoteId : Nat
deriving Repr, DecidableEq

/-- The store of a fresh deployment: no rows, serial counters at 1. -/
def emptyStore : Store :=
  { users := [], positions := [], candidates := [], votes := []
    nextUserId := 1, nextPositionId := 1, nextCandidateId := 1, nextVoteId := 1 }

/-- Modelled from the spec: `storage.getUser` (placeholder in
`storage.ts`, lines 29–32) as a primary-key lookup. -/
def getUser (s : Store) (id : Nat) : Option User :=
  s.users.find? (fun u => u.id == id)

/-- Modelled from the spec: `storage.getUserByReferenceNumber` as a
unique-keyed lookup (§4.1: "must be unique-keyed").  The shipped stub
only hardcodes the admin "ARSC2025" row. -/
def getUserByReferenceNumber (s : Store) (ref : String) : Option User :=
  s.users.find? (fun u => u.referenceNumber == ref)

/-- Modelled from the spec: `storage.getPosition` as a primary-key
lookup (placeholder in `storage.ts`, lines 97–99). -/
def getPosition (s : Store) (id : Nat) : Option Position :=
  s.positions.find? (fun p => p.id == id)

/-- Modelled from the spec: `storage.getCandidate` as a primary-key
lookup (placeholder in `storage.ts`, lines 117–119). -/
def getCandidate (s : Store) (id : Nat) : Option Candidate :=
  s.candidates.find? (fun c => c.id == id)

/-- Modelled from the spec: `storage.createUser` inserts a row with a
fresh serial id; `hasVoted` starts at its column default `false`. -/
def createUser (s : Store) (d : InsertUser) : User × Store :=
  let u : User :=
    { id := s.nextUserId, name := d.name, referenceNumber := d.referenceNumber
      isAdmin := d.isAdmin, hasVoted := false
      schoolLevel := d.schoolLevel, gradeLevel := d.gradeLevel }
  (u, { s with users := s.users ++ [u], nextUserId := s.nextUserId + 1 })

/-- Modelled from the spec: `storage.createPosition` inserts a row with
a fresh serial id. -/
def createPosition (s : Store) (d : InsertPosition) : Position × Store :=
  let p : Position :=
    { id := s.nextPositionId, name := d.name, maxVotes := d.maxVotes
      schoolLevels := d.schoolLevels, displayOrder := d.displayOrder }
  (p, { s with positions := s.positions ++ [p], nextPositionId := s.nextPositionId + 1 })

/-- Modelled from the spec: `storage.createCandidate` inserts a row with
a fresh serial id. -/
def createCandidate (s : Store) (d : InsertCandidate) : Candidate × Store :=
  let c : Candidate :=
    { id := s.nextCandidateId, name := d.name, photo := d.photo
      positionId := d.positionId, partylistId := d.partylistId
      schoolLevels := d.schoolLevels, gradeLevels := d.gradeLevels }
  (c, { s with candidates := s.candidates ++ [c], nextCandidateId := s.nextCandidateId + 1 })

/-- Modelled from the spec: `storage.createVote` inserts a row with a
fresh serial id.  Per §5 of the spec, the reference store has no
uniqueness guarantee on (userId, positionId) ("The reference
implementation's in-process placeholder store has no such guarantee and
is a known gap"), so the insert is unconditional. -/
def createVote (s : Store) (d : InsertVote) : Vote × Store :=
  let v : Vote :=
    { id := s.nextVoteId, userId := d.userId
      candidateId := d.candidateId, positionId := d.positionId }
  (v, { s with votes := s.votes ++ [v], nextVoteId := s.nextVoteId + 1 })

/-- The store after `storage.resetUserVote` succeeds on user `uid`:
that user's has-voted flag is cleared and all of their Vote rows are
deleted. -/
def resetStore (s : Store) (uid : Nat) : Store :=
  { s with
    users := s.users.map (fun w => if w.id == uid then { w with hasVoted := false } else w)
    votes := s.votes.filter (fun v => v.userId != uid) }

/-- Modelled from the spec: `storage.resetUserVote` (placeholder in
`storage.ts`, lines 59–62).  Spec §3/§8: resetting "removes their Votes
and flips has-voted to false"; returns the updated user, or `none` when
the user does not exist (the handler turns that into a 404). -/
def resetUserVote (s : Store) (uid : Nat) : Option User × Store :=
  match getUser s uid with
  | none => (none, s)
  | some u => (some { u with hasVoted := false }, resetStore s uid)

/-- Outcome of the `POST /api/votes` handler (`routes.ts`,
lines 691–743), one constructor per `return` of the source. -/
inductive VoteOutcome where
  | notAuthenticated
  | userNotFound
  | positionNotFound
  | candidateNotFound
  | wrongPosition
  | created (v : Vote)
deriving Repr, DecidableEq

/-- HTTP status attached to each outcome in the source. -/
def VoteOutcome.httpStatus : VoteOutcome → Nat
  | .notAuthenticated => 401
  | .userNotFound => 404
  | .positionNotFound => 404
  | .candidateNotFound => 404
  | .wrongPosition => 400
  | .created _ => 201

/-- JSON message attached to each failure outcome in the source (the
success response carries the created vote instead). -/
def VoteOutcome.message : VoteOutcome → String
  | .notAuthenticated => "Not authenticated"
  | .userNotFound => "User not found"
  | .positionNotFound => "Position not found"
  | .candidateNotFound => "Candidate not found"
  | .wrongPosition => "Candidate is not for this position"
  | .created _ => ""

/-- Result of a vote submission: the HTTP outcome, the store afterwards,
and the session user afterwards (the handler rewrites the session on
success, lines 731–734). -/
structure VoteResult where
  outcome : VoteOutcome
  store : Store
  session : Option SessionUser
deriving Repr, DecidableEq

/-- The `POST /api/votes` handler (`routes.ts`, lines 691–743), check
for check in source order:
1. no session user → 401;
2. `storage.getUser(user.id)` null → 404 "User not found" (the source
   comment says this fetch is "to check if they've already voted", but
   no such check follows);
3. position missing → 404; candidate missing → 404;
4. `candidate.positionId !== position.id` → 400;
5. otherwise `storage.createVote({userId: user.id, candidateId,
   positionId})` and the *session* user's `hasVoted` is set to `true`
   (the stored User row is not updated).
The `insertVoteSchema.parse` call only validates the JSON shape, which
the typed inputs already guarantee. -/
def postVote (s : Store) (session : Option SessionUser) (positionId candidateId : Nat) :
    VoteResult :=
  match session with
  | none => ⟨.notAuthenticated, s, none⟩
  | some user =>
    match getUser s user.id with
    | none => ⟨.userNotFound, s, some user⟩
    | some _userRecord =>
      match getPosition s positionId with
      | none => ⟨.positionNotFound, s, some user⟩
      | some position =>
        match getCandidate s candidateId with
        | none => ⟨.candidateNotFound, s, some user⟩
        | some candidate =>
          if candidate.positionId != position.id then
            ⟨.wrongPosition, s, some user⟩
          else
            let (vote, s') := createVote s
              { userId := user.id, candidateId := candidateId, positionId := positionId }
            ⟨.created vote, s', some { user with hasVoted := true }⟩

/-- `storage.getUser` exactly as shipped (`storage.ts`, lines 29–32):
the placeholder body returns `null` for every id. -/
def placeholderGetUser (_id : Nat) : Option User := none

/-- `storage.getPosition` exactly as shipped (`storage.ts`,
lines 97–99): always `null`. -/
def placeholderGetPosition (_id : Nat) : Option Position := none

/-- `storage.getCandidate` exactly as shipped (`storage.ts`,
lines 117–119): always `null`. -/
def placeholderGetCandidate (_id : Nat) : Option Candidate := none

/-- The `POST /api/votes` handler run against the *shipped* placeholder
store: lookups as in `storage.ts`, and `createVote` (lines 141–143)
returns its argument without persisting anything, so the vote list is
threaded through unchanged on every path. -/
def postVoteShipped (votes : List Vote) (session : Option SessionUser)
    (positionId candidateId : Nat) : VoteOutcome × List Vote :=
  match session with
  | none => (.notAuthenticated, votes)
  | some user =>
    match placeholderGetUser user.id with
    | none => (.userNotFound, votes)
    | some _userRecord =>
      match placeholderGetPosition positionId with
      | none => (.positionNotFound, votes)
      | some position =>
        match placeholderGetCandidate candidateId with
        | none => (.candidateNotFound, votes)
        | some candidate =>
          if candidate.positionId != position.id then
            (.wrongPosition, votes)
          else
            (.created { id := 0, userId := user.id
                        candidateId := candidateId, positionId := positionId }, votes)

/-- Outcome of the `POST /api/users` handler (`routes.ts`,
lines 513–544). -/
inductive CreateUserOutcome where
  | unauthorized
  | duplicateKey
  | created (u : User)
deriving Repr, DecidableEq

/-- HTTP status attached to each outcome in the source (403, 409
"User with this reference number already exists", 201). -/
def CreateUserOutcome.httpStatus : CreateUserOutcome → Nat
  | .unauthorized => 403
  | .duplicateKey => 409
  | .created _ => 201

/-- The `POST /api/users` handler (`routes.ts`, lines 513–544): admin
gate, then reject with 409 when `getUserByReferenceNumber` finds an
existing user with the submitted reference number, else create.  The
`insertUserSchema.parse` shape check is discharged by the typed input. -/
def postCreateUser (s : Store) (session : Option SessionUser) (d : InsertUser) :
    CreateUserOutcome × Store :=
  match session with
  | none => (.unauthorized, s)
  | some user =>
    if !user.isAdmin then (.unauthorized, s)
    else
      match getUserByReferenceNumber s d.referenceNumber with
      | some _ => (.duplicateKey, s)
      | none =>
        let (u, s') := createUser s d
        (.created u, s')

/-- Outcome of the `POST /api/users/:id/reset-vote` handler
(`routes.ts`, lines 659–688). -/
inductive ResetOutcome where
  | unauthorized
  | notFound
  | ok (u : User)
deriving Repr, DecidableEq

/-- The `POST /api/users/:id/reset-vote` handler (`routes.ts`,
lines 659–688): admin gate, then `storage.resetUserVote(id)`; `null`
becomes a 404, otherwise the updated user is returned with 200. -/
def postResetVote (s : Store) (session : Option SessionUser) (uid : Nat) :
    ResetOutcome × Store :=
  match session with
  | none => (.unauthorized, s)
  | some user =>
    if !user.isAdmin then (.unauthorized, s)
    else
      match resetUserVote s uid with
      | (none, s') => (.notFound, s')
      | (some u, s') => (.ok u, s')

/-- The `POST /api/positions` handler (`routes.ts`, lines 316–332):
admin gate, shape check by type, then `storage.createPosition`. -/
def postCreatePosition (s : Store) (session : Option SessionUser) (d : InsertPosition) :
    Option Position × Store :=
  match session with
  | none => (none, s)
  | some user =>
    if !user.isAdmin then (none, s)
    else
      let (p, s') := createPosition s d
      (some p, s')

/-- The `POST /api/candidates` handler (`routes.ts`, lines 418–434):
admin gate, shape check by type, then `storage.createCandidate` (no
referential check on the position or partylist — spec §4.1 permits
that). -/
def postCreateCandidate (s : Store) (session : Option SessionUser) (d : InsertCandidate) :
    Option Candidate × Store :=
  match session with
  | none => (none, s)
  | some user =>
    if !user.isAdmin then (none, s)
    else
      let (c, s') := createCandidate s d
      (some c, s')

/-- One state-changing request against the API: vote submissions, user
creation, admin position/candidate creation, admin vote reset.  The
session argument is whatever the auth layer supplies; per spec §6 the
core trusts it as authoritative. -/
inductive Op where
  | userOp (session : Option SessionUser) (d : InsertUser)
  | positionOp (session : Option SessionUser) (d : InsertPosition)
  | candidateOp (session : Option SessionUser) (d : InsertCandidate)
  | voteOp (session : Option SessionUser) (positionId candidateId : Nat)
  | resetOp (session : Option SessionUser) (uid : Nat)
deriving Repr, DecidableEq

/-- Effect of one request on the store, as implemented by the
corresponding `routes.ts` handler (responses discarded). -/
def applyOp (s : Store) : Op → Store
  | .userOp session d => (postCreateUser s session d).2
  | .positionOp session d => (postCreatePosition s session d).2
  | .candidateOp session d => (postCreateCandidate s session d).2
  | .voteOp session pid cid => (postVote s session pid cid).store
  | .resetOp session uid => (postResetVote s session uid).2

/-- The store produced by a sequence of requests against a fresh
deployment's successor states. -/
def run (s : Store) (ops : List Op) : Store :=
  ops.foldl applyOp s

/-- A store is reachable when some request sequence produces it from
the empty store. -/
def Reachable (s : Store) : Prop :=
  ∃ ops : List Op, run emptyStore ops = s

/-- The central integrity constraint of spec §3: no two Vote rows share
the same (userId, positionId) pair. -/
def votePairsOk (votes : List Vote) : Prop :=
  votes.Pairwise (fun v w => v.userId ≠ w.userId ∨ v.positionId ≠ w.positionId)

instance (votes : List Vote) : Decidable (votePairsOk votes) := by
  unfold votePairsOk
  infer_instance

/-- An admin session, as the login handler builds one (the shipped
store hardcodes an "ARSC2025" admin row). -/
def adminSession : SessionUser :=
  { id := 99, name := "admin", isAdmin := true, hasVoted := false
    schoolLevel := none, gradeLevel := none }

/-- Creation payload for a non-admin elementary student. -/
def studentData : InsertUser :=
  { name := "Student One", referenceNumber := "R1", isAdmin := false
    schoolLevel := some "elementary", gradeLevel := some 4 }

/-- The stored row `storage.createUser` produces for `studentData` as
the first user (serial id 1, `hasVoted` defaulting to false). -/
def student1 : User :=
  { id := 1, name := "Student One", referenceNumber := "R1", isAdmin := false
    hasVoted := false, schoolLevel := some "elementary", gradeLevel := some 4 }

/-- The session the login handler builds for `student1`. -/
def studentSession : SessionUser :=
  { id := 1, name := "Student One", isAdmin := false, hasVoted := false
    schoolLevel := some "elementary", gradeLevel := some 4 }

/-- Creation payload for a single-seat elementary position. -/
def presidentData : InsertPosition :=
  { name := "President", maxVotes := 1, schoolLevels := ["elementary"], displayOrder := 1 }

/-- Creation payload for a candidate of position 1. -/
def candidateAData : InsertCandidate :=
  { name := "Candidate A", photo := none, positionId := 1, partylistId := 1
    schoolLevels := ["elementary"], gradeLevels := [4] }

/-- Admin setup requests: one student, one position, one candidate of
that position. -/
def setupOps : List Op :=
  [ .userOp (some adminSession) studentData
  , .positionOp (some adminSession) presidentData
  , .candidateOp (some adminSession) candidateAData ]

/-- The store after `setupOps`: student 1, position 1, candidate 1, no
votes. -/
def baseStore : Store :=
  run emptyStore setupOps

/-- The store after `setupOps` followed by one vote of student 1 for
candidate 1 on position 1. -/
def singleVoteStore : Store :=
  run emptyStore (setupOps ++ [.voteOp (some studentSession) 1 1])

/-- The request sequence in which student 1 submits the same vote
twice. -/
def doubleVoteOps : List Op :=
  setupOps ++ [.voteOp (some studentSession) 1 1, .voteOp (some studentSession) 1 1]

/-- The store after `doubleVoteOps`. -/
def doubleVoteStore : Store :=
  run emptyStore doubleVoteOps

/-- One `{positionId, candidateId, count}` tuple of
`storage.getVoteCounts()` (spec §6; the shipped stub returns `[]`). -/
structure VoteCountRow where
  positionId : Nat
  candidateId : Nat
  count : Nat
deriving Repr, DecidableEq

/-- The `summary` object of the stats response (`routes.ts`,
lines 818–823). -/
structure StatsSummary where
  totalStudents : Nat
  votedStudents : Nat
  participationRate : ℚ
deriving Repr, DecidableEq

/-- One `votesByPosition` entry (`routes.ts`, lines 768–779). -/
structure PositionStat where
  positionId : Nat
  positionName : String
  votes : Nat
  percentage : ℚ
deriving Repr, DecidableEq

/-- One `votesBySchoolLevel` entry (`routes.ts`, lines 783–793). -/
structure LevelStat where
  schoolLevel : String
  totalStudents : Nat
  votedStudents : Nat
  percentage : ℚ
deriving Repr, DecidableEq

/-- One candidate entry of `votesByCandidateAndPosition`
(`routes.ts`, lines 799–809). -/
structure CandidateStat where
  candidateId : Nat
  candidateName : String
  votes : Nat
  percentage : ℚ
deriving Repr, DecidableEq

/-- One position entry of `votesByCandidateAndPosition`
(`routes.ts`, lines 796–816). -/
structure PositionCandidateStat where
  positionId : Nat
  positionName : String
  candidates : List CandidateStat
deriving Repr, DecidableEq

/-- The full JSON body of `GET /api/votes/stats` (`routes.ts`,
lines 818–827). -/
structure StatsResponse where
  summary : StatsSummary
  votesByPosition : List PositionStat
  votesBySchoolLevel : List LevelStat
  votesByCandidateAndPosition : List PositionCandidateStat
deriving Repr, DecidableEq

/-- `routes.ts`, line 760: count of non-admin users. -/
def totalStudentsOf (users : List User) : Nat :=
  (users.filter (fun u => !u.isAdmin)).length

/-- `routes.ts`, line 761: count of non-admin users with
`hasVoted`. -/
def votedStudentsOf (users : List User) : Nat :=
  (users.filter (fun u => !u.isAdmin && u.hasVoted)).length

/-- The aggregation body of the `GET /api/votes/stats` handler
(`routes.ts`, lines 752–827), computed from the four storage reads the
handler performs.  The admin gate of lines 747–750 and the float
arithmetic are the only departures: the gate guards access, not the
computation, and percentages are computed in `ℚ` (the source performs a
single exact-in-ℚ division and multiplication per entry, guarded by
`totalStudents > 0` exactly as written on lines 762, 777, 791
and 807). -/
def getVoteStats (users : List User) (positions : List Position)
    (candidates : List Candidate) (voteCounts : List VoteCountRow) : StatsResponse :=
  let totalStudents := totalStudentsOf users
  let votedStudents := votedStudentsOf users
  let participationRate : ℚ :=
    if totalStudents > 0 then ((votedStudents : ℚ) / (totalStudents : ℚ)) * 100 else 0
  let votesByPosition := positions.map (fun position =>
    let positionVotes :=
      (voteCounts.filter (fun vc => vc.positionId == position.id)).foldl
        (fun sum vc => sum + vc.count) 0
    { positionId := position.id, positionName := position.name
      votes := positionVotes
      percentage :=
        if totalStudents > 0 then ((positionVotes : ℚ) / (totalStudents : ℚ)) * 100 else 0
      : PositionStat })
  let schoolLevels := ["elementary", "juniorHigh", "seniorHigh"]
  let votesBySchoolLevel := schoolLevels.map (fun level =>
    let levelUsers := users.filter (fun u => !u.isAdmin && u.schoolLevel == some level)
    let levelVotedUsers := levelUsers.filter (fun u => u.hasVoted)
    { schoolLevel := level
      totalStudents := levelUsers.length
      votedStudents := levelVotedUsers.length
      percentage :=
        if levelUsers.length > 0 then
          ((levelVotedUsers.length : ℚ) / (levelUsers.length : ℚ)) * 100
        else 0
      : LevelStat })
  let votesByCandidateAndPosition := positions.map (fun position =>
    let positionCandidates := candidates.filter (fun c => c.positionId == position.id)
    let candidateResults := positionCandidates.map (fun candidate =>
      let voteCount :=
        match voteCounts.find?
            (fun vc => vc.positionId == position.id && vc.candidateId == candidate.id) with
        | some vc => vc.count
        | none => 0
      { candidateId := candidate.id, candidateName := candidate.name
        votes := voteCount
        percentage :=
          if totalStudents > 0 then ((voteCount : ℚ) / (totalStudents : ℚ)) * 100 else 0
        : CandidateStat })
    { positionId := position.id, positionName := position.name
      candidates := candidateResults : PositionCandidateStat })
  { summary :=
      { totalStudents := totalStudents, votedStudents := votedStudents
        participationRate := participationRate }
    votesByPosition := votesByPosition
    votesBySchoolLevel := votesBySchoolLevel
    votesByCandidateAndPosition := votesByCandidateAndPosition }

/-- Number of Vote rows for one position, the quantity "vote count for
that position" of spec §8. -/
def countPositionVotes (s : Store) (pid : Nat) : Nat :=
  (s.votes.filter (fun v => v.positionId == pid)).length

/-- The stored row `storage.createPosition` produces for
`presidentData` as the first position. -/
def president1 : Position :=
  { id := 1, name := "President", maxVotes := 1
    schoolLevels := ["elementary"], displayOrder := 1 }

/-- The stored row `storage.createCandidate` produces for
`candidateAData` as the first candidate. -/
def candidateA1 : Candidate :=
  { id := 1, name := "Candidate A", photo := none, positionId := 1
    partylistId := 1, schoolLevels := ["elementary"], gradeLevels := [4] }

/-- A stored candidate whose `positionId` (2) differs from the only
existing position (1). -/
def candidateBWrong : Candidate :=
  { id := 1, name := "Candidate B", photo := none, positionId := 2
    partylistId := 1, schoolLevels := ["elementary"], gradeLevels := [4] }

/-- A store holding student 1, position 1, and a candidate registered
under a different position id. -/
def mismatchStore : Store :=
  { users := [student1], positions := [president1], candidates := [candidateBWrong]
    votes := [], nextUserId := 2, nextPositionId := 2, nextCandidateId := 2, nextVoteId := 1 }

/-- A senior-high-only position, used to exercise the absence of an
eligibility check. -/
def ssgPosition : Position :=
  { id := 1, name := "SSG President", maxVotes := 1
    schoolLevels := ["seniorHigh"], displayOrder := 1 }

/-- A candidate of `ssgPosition` open only to senior-high grade 11. -/
def seniorCandidate : Candidate :=
  { id := 1, name := "Candidate S", photo := none, positionId := 1
    partylistId := 1, schoolLevels := ["seniorHigh"], gradeLevels := [11] }

/-- A store in which the only voter is an elementary student while the
only position and candidate are senior-high-scoped. -/
def ineligibleStore : Store :=
  { users := [student1], positions := [ssgPosition], candidates := [seniorCandidate]
    votes := [], nextUserId := 2, nextPositionId := 2, nextCandidateId := 2, nextVoteId := 1 }

/-- Ten non-admin students, the student body of the spec §8
percentage scenario. -/
def scenarioUsers : List User :=
  List.replicate 10 student1

/-- `getVoteCounts()` rows for the spec §8 percentage scenario: 4 votes
for candidate 1 on position 1. -/
def scenarioVoteCounts : List VoteCountRow :=
  [{ positionId := 1, candidateId := 1, count := 4 }]

/-- The stats response of the spec §8 percentage scenario. -/
def scenarioStats : StatsResponse :=
  getVoteStats scenarioUsers [president1] [candidateA1] scenarioVoteCounts

/-- The candidate entry the scenario should produce: 4 votes out of 10
students, i.e. 40% (stated as the unreduced quotient the handler
computes). -/
def scenarioCs : CandidateStat :=
  { candidateId := 1, candidateName := "Candidate A", votes := 4
    percentage := ((4 : Nat) : ℚ) / ((10 : Nat) : ℚ) * 100 }

/-- The position entry the scenario should produce. -/
def scenarioPs : PositionCandidateStat :=
  { positionId := 1, positionName := "President", candidates := [scenarioCs] }

/-- A successful vote submission evaluates to the created vote, the
store with that vote appended, and the session with `hasVoted` set —
the straight-line success path of the handler. -/
theorem postVote_eq_created (s : Store) (sess : SessionUser) (pid cid : Nat)
    (u : User) (p : Position) (c : Candidate)
    (hu : getUser s sess.id = some u)
    (hp : getPosition s pid = some p)
    (hc : getCandidate s cid = some c)
    (heq : c.positionId = p.id) :
    postVote s (some sess) pid cid =
      ⟨.created { id := s.nextVoteId, userId := sess.id, candidateId := cid, positionId := pid },
       { s with
         votes := s.votes ++ [{ id := s.nextVoteId, userId := sess.id, candidateId := cid, positionId := pid }],
         nextVoteId := s.nextVoteId + 1 },
       some { sess with hasVoted := true }⟩ := by
  simp only [postVote, hu, hp, hc, heq, bne_self_eq_false, Bool.false_eq_true, if_false,
    createVote]

/-- Clearing the has-voted flag of the user found by an id lookup
commutes with the lookup. -/
theorem find?_id_map_reset (l : List User) (uid : Nat) (u : User)
    (h : l.find? (fun w => w.id == uid) = some u) :
    (l.map (fun w => if w.id == uid then { w with hasVoted := false } else w)).find?
      (fun w => w.id == uid) = some { u with hasVoted := false } := by
  induction l with
  | nil => simp at h
  | cons a l ih =>
    simp only [List.find?, List.map_cons] at h ⊢
    cases ha : (a.id == uid) with
    | true =>
      rw [ha] at h
      injection h with h
      subst h
      simp [ha]
    | false =>
      rw [ha] at h
      simp only [ha, Bool.false_eq_true, if_false]
      exact ih h

/-- Claim C1: the claimed invariant — no two Vote rows of a reachable
store share a (userId, positionId) pair — fails on the code.  The store
reached by creating one student, one position and one candidate and
letting the student submit the same vote twice holds two Vote rows for
(userId 1, positionId 1): the vote handler performs no duplicate check
before inserting. -/
theorem reachable_duplicate_vote_pair :
    Reachable doubleVoteStore ∧
    doubleVoteStore.votes =
      [{ id := 1, userId := 1, candidateId := 1, positionId := 1 },
       { id := 2, userId := 1, candidateId := 1, positionId := 1 }] ∧
    ¬ votePairsOk doubleVoteStore.votes :=
  ⟨⟨doubleVoteOps, rfl⟩, by decide, by decide⟩

/-- Claim C2: the claimed behaviour — a second submission by the same
user for the same position fails with AlreadyVoted and the position's
vote count stays 1 — fails on the code.  Both submissions return 201
Created (`VoteOutcome` has no AlreadyVoted case because the handler has
no such branch), and the count for position 1 goes from 1 to 2. -/
theorem second_vote_accepted :
    (postVote baseStore (some studentSession) 1 1).outcome =
      .created { id := 1, userId := 1, candidateId := 1, positionId := 1 } ∧
    countPositionVotes singleVoteStore 1 = 1 ∧
    (postVote singleVoteStore (some studentSession) 1 1).outcome =
      .created { id := 2, userId := 1, candidateId := 1, positionId := 1 } ∧
    countPositionVotes (postVote singleVoteStore (some studentSession) 1 1).store 1 = 2 := by
  refine ⟨by decide, by decide, by decide, by decide⟩

/-- Claim C3: the claimed behaviour — a successful vote persists the
Vote and sets the has-voted flag on the stored User record, not merely
in session state — fails on the code.  The vote is persisted and the
*session* copy gets `hasVoted := true`, but the stored row of user 1 is
returned unchanged with `hasVoted = false`: the handler never calls any
store update for the user. -/
theorem has_voted_flag_session_only :
    (postVote baseStore (some studentSession) 1 1).outcome =
      .created { id := 1, userId := 1, candidateId := 1, positionId := 1 } ∧
    (postVote baseStore (some studentSession) 1 1).store.votes =
      [{ id := 1, userId := 1, candidateId := 1, positionId := 1 }] ∧
    (postVote baseStore (some studentSession) 1 1).session =
      some { studentSession with hasVoted := true } ∧
    getUser (postVote baseStore (some studentSession) 1 1).store 1 = some student1 ∧
    student1.hasVoted = false := by
  refine ⟨by decide, by decide, by decide, by decide, by decide⟩

/-- Claim C10: against the shipped placeholder store, whose `getUser`
returns null for every id, every authenticated vote submission fails
with 404 "User not found" — before the position or candidate lookups,
since this holds for every positionId/candidateId — and the vote list
is unchanged. -/
theorem shipped_vote_always_user_not_found (votes : List Vote) (sess : SessionUser)
    (pid cid : Nat) :
    placeholderGetUser sess.id = none ∧
    postVoteShipped votes (some sess) pid cid = (.userNotFound, votes) ∧
    VoteOutcome.userNotFound.httpStatus = 404 ∧
    VoteOutcome.userNotFound.message = "User not found" :=
  ⟨rfl, rfl, rfl, rfl⟩

/-- Claim C4: when the session user exists and the referenced position
and candidate both exist but the candidate's `positionId` differs from
the submitted position's id, the submission fails with 400 and the
store is unchanged. -/
theorem mismatched_candidate_rejected (s : Store) (sess : SessionUser) (pid cid : Nat)
    (u : User) (p : Position) (c : Candidate)
    (hu : getUser s sess.id = some u)
    (hp : getPosition s pid = some p)
    (hc : getCandidate s cid = some c)
    (hne : c.positionId ≠ p.id) :
    postVote s (some sess) pid cid = ⟨.wrongPosition, s, some sess⟩ ∧
    VoteOutcome.wrongPosition.httpStatus = 400 := by
  refine ⟨?_, rfl⟩
  have hb : (c.positionId != p.id) = true := by
    simpa [bne_iff_ne] using hne
  simp only [postVote, hu, hp, hc, hb, if_true]

/-- Witness for C4: in a store whose only candidate is registered under
position 2 while position 1 is submitted, the vote is rejected with the
store unchanged. -/
theorem mismatched_candidate_rejected_witness :
    postVote mismatchStore (some studentSession) 1 1 =
      ⟨.wrongPosition, mismatchStore, some studentSession⟩ ∧
    candidateBWrong.positionId = 2 ∧ president1.id = 1 := by
  have h := mismatched_candidate_rejected mismatchStore studentSession 1 1
    student1 president1 candidateBWrong (by decide) (by decide) (by decide) (by decide)
  exact ⟨h.1, rfl, rfl⟩

/-- Claim C9: when the session user, position and candidate all exist
and the candidate belongs to the submitted position, the vote is
accepted and persisted — under no hypothesis whatsoever on the user's
schoolLevel or gradeLevel against the position's `schoolLevels` or the
candidate's `schoolLevels`/`gradeLevels`: the handler has no
eligibility check. -/
theorem vote_accepted_without_eligibility_check (s : Store) (sess : SessionUser)
    (pid cid : Nat) (u : User) (p : Position) (c : Candidate)
    (hu : getUser s sess.id = some u)
    (hp : getPosition s pid = some p)
    (hc : getCandidate s cid = some c)
    (heq : c.positionId = p.id) :
    (postVote s (some sess) pid cid).outcome =
      .created { id := s.nextVoteId, userId := sess.id, candidateId := cid, positionId := pid } ∧
    (postVote s (some sess) pid cid).store.votes =
      s.votes ++ [{ id := s.nextVoteId, userId := sess.id, candidateId := cid, positionId := pid }] := by
  rw [postVote_eq_created s sess pid cid u p c hu hp hc heq]
  exact ⟨rfl, rfl⟩

/-- Witness for C9: an elementary student's vote on a
senior-high-scoped position for a senior-high-scoped candidate is
accepted. -/
theorem vote_accepted_without_eligibility_check_witness :
    student1.schoolLevel = some "elementary" ∧
    ssgPosition.schoolLevels = ["seniorHigh"] ∧
    seniorCandidate.schoolLevels = ["seniorHigh"] ∧
    seniorCandidate.gradeLevels = [11] ∧
    (postVote ineligibleStore (some studentSession) 1 1).outcome =
      .created { id := 1, userId := 1, candidateId := 1, positionId := 1 } := by
  have h := vote_accepted_without_eligibility_check ineligibleStore studentSession 1 1
    student1 ssgPosition seniorCandidate (by decide) (by decide) (by decide) (by decide)
  exact ⟨rfl, rfl, rfl, rfl, h.1⟩

/-- Claim C5: for an existing user, the admin reset-vote operation
returns the user with the has-voted flag cleared, deletes exactly that
user's Vote rows, clears the flag on the stored row, and a subsequent
well-formed vote submission by that user (any position/candidate pair
that exists and matches) is accepted again. -/
theorem reset_vote_clears_votes_and_flag (s : Store) (sess : SessionUser) (uid : Nat)
    (u : User)
    (hadmin : sess.isAdmin = true)
    (hu : getUser s uid = some u) :
    postResetVote s (some sess) uid = (.ok { u with hasVoted := false }, resetStore s uid) ∧
    (resetStore s uid).votes = s.votes.filter (fun v => v.userId != uid) ∧
    getUser (resetStore s uid) uid = some { u with hasVoted := false } ∧
    (∀ (sess2 : SessionUser) (pid cid : Nat) (p : Position) (c : Candidate),
      sess2.id = uid →
      getPosition s pid = some p →
      getCandidate s cid = some c →
      c.positionId = p.id →
      (postVote (resetStore s uid) (some sess2) pid cid).outcome =
        .created { id := (resetStore s uid).nextVoteId, userId := sess2.id
                   candidateId := cid, positionId := pid }) := by
  have hgu : getUser (resetStore s uid) uid = some { u with hasVoted := false } :=
    find?_id_map_reset s.users uid u hu
  refine ⟨?_, rfl, hgu, ?_⟩
  · simp only [postResetVote, hadmin, Bool.not_true, Bool.false_eq_true, if_false,
      resetUserVote, hu]
  · intro sess2 pid cid p c hid hp hc heq
    have hu2 : getUser (resetStore s uid) sess2.id = some { u with hasVoted := false } := by
      rw [hid]; exact hgu
    have hp2 : getPosition (resetStore s uid) pid = some p := hp
    have hc2 : getCandidate (resetStore s uid) cid = some c := hc
    rw [postVote_eq_created _ sess2 pid cid _ p c hu2 hp2 hc2 heq]

/-- Witness for C5: resetting user 1 in the store holding their single
vote returns the user with the flag cleared and empties the vote
list. -/
theorem reset_vote_witness :
    getUser singleVoteStore 1 = some student1 ∧
    (postResetVote singleVoteStore (some adminSession) 1).1 =
      .ok { student1 with hasVoted := false } ∧
    (postResetVote singleVoteStore (some adminSession) 1).2.votes = [] := by
  have h := reset_vote_clears_votes_and_flag singleVoteStore adminSession 1 student1
    (by decide) (by decide)
  refine ⟨by decide, ?_, ?_⟩
  · rw [h.1]
  · rw [h.1]; decide

/-- Claim C8: a create-User request whose referenceNumber collides with
a stored user's fails with 409 and leaves the store — in particular the
user list — unchanged. -/
theorem duplicate_reference_number_rejected (s : Store) (sess : SessionUser)
    (d : InsertUser) (u0 : User)
    (hadmin : sess.isAdmin = true)
    (hmem : u0 ∈ s.users)
    (href : u0.referenceNumber = d.referenceNumber) :
    postCreateUser s (some sess) d = (.duplicateKey, s) ∧
    CreateUserOutcome.duplicateKey.httpStatus = 409 := by
  refine ⟨?_, rfl⟩
  simp only [postCreateUser, hadmin, Bool.not_true, Bool.false_eq_true, if_false]
  cases hfind : getUserByReferenceNumber s d.referenceNumber with
  | none =>
    exfalso
    rw [getUserByReferenceNumber, List.find?_eq_none] at hfind
    have hne := hfind u0 hmem
    simp only [beq_iff_eq] at hne
    exact hne href
  | some u => rfl

/-- Witness for C8: re-submitting `studentData` (referenceNumber "R1")
against the store already holding student 1 is rejected with the store
unchanged. -/
theorem duplicate_reference_number_rejected_witness :
    student1 ∈ baseStore.users ∧
    student1.referenceNumber = studentData.referenceNumber ∧
    postCreateUser baseStore (some adminSession) studentData = (.duplicateKey, baseStore) := by
  have h := duplicate_reference_number_rejected baseStore adminSession studentData student1
    (by decide) (by decide) (by decide)
  exact ⟨by decide, by decide, h.1⟩

/-- Claim C6: the summary's totalStudents and votedStudents are the
non-admin counts, and participationRate is votedStudents divided by
totalStudents times 100, and exactly 0 when there are 0 non-admin
users (a well-defined rational — no NaN, no error). -/
theorem participation_rate_formula (users : List User) (positions : List Position)
    (candidates : List Candidate) (voteCounts : List VoteCountRow) :
    (getVoteStats users positions candidates voteCounts).summary.totalStudents =
      totalStudentsOf users ∧
    (getVoteStats users positions candidates voteCounts).summary.votedStudents =
      votedStudentsOf users ∧
    (getVoteStats users positions candidates voteCounts).summary.participationRate =
      (if totalStudentsOf users = 0 then 0
       else ((votedStudentsOf users : ℚ) / (totalStudentsOf users : ℚ)) * 100) := by
  refine ⟨rfl, rfl, ?_⟩
  by_cases h : totalStudentsOf users = 0
  · simp [getVoteStats, h]
  · simp [getVoteStats, h, Nat.pos_of_ne_zero h]

/-- Claim C7: every candidate entry of votesByCandidateAndPosition has
percentage equal to its own vote count divided by the overall count of
non-admin users times 100 — the denominator is the whole student body,
not the position's subgroup. -/
theorem candidate_percentage_uses_total_students (users : List User)
    (positions : List Position) (candidates : List Candidate)
    (voteCounts : List VoteCountRow) (ps : PositionCandidateStat) (cs : CandidateStat)
    (hps : ps ∈ (getVoteStats users positions candidates voteCounts).votesByCandidateAndPosition)
    (hcs : cs ∈ ps.candidates) :
    cs.percentage =
      (if totalStudentsOf users = 0 then 0
       else ((cs.votes : ℚ) / (totalStudentsOf users : ℚ)) * 100) := by
  simp only [getVoteStats, List.mem_map] at hps
  obtain ⟨position, hpos, rfl⟩ := hps
  simp only [List.mem_map] at hcs
  obtain ⟨candidate, hcand, rfl⟩ := hcs
  by_cases h : totalStudentsOf users = 0
  · simp [h]
  · simp [h, Nat.pos_of_ne_zero h]

/-- Witness for C7: the spec §8 scenario — 10 students, 4 votes for the
candidate — yields a candidate entry whose percentage is 40, even
though the candidate list is elementary-scoped. -/
theorem candidate_percentage_uses_total_students_witness :
    totalStudentsOf scenarioUsers = 10 ∧
    scenarioPs ∈ scenarioStats.votesByCandidateAndPosition ∧
    scenarioCs ∈ scenarioPs.candidates ∧
    scenarioCs.votes = 4 ∧
    scenarioCs.percentage = 40 := by
  have hps : scenarioPs ∈ scenarioStats.votesByCandidateAndPosition := List.Mem.head _
  have hcs : scenarioCs ∈ scenarioPs.candidates := List.Mem.head _
  have h := candidate_percentage_uses_total_students scenarioUsers [president1] [candidateA1]
    scenarioVoteCounts scenarioPs scenarioCs hps hcs
  have h10 : totalStudentsOf scenarioUsers = 10 := by decide
  refine ⟨h10, hps, hcs, rfl, ?_⟩
  rw [h, h10]
  norm_num [scenarioCs]

end ARSC
